import Mathlib

/-!
Shallow embedding of the provider-detection-and-verification core of the
`checkapi` repository (TypeScript sources `src/lib/providers/index.ts`,
`src/lib/check/errors.ts`, `src/lib/check/score.ts`,
`src/lib/check/normalize.ts`).

Modelling conventions:
* JavaScript strings are Lean `String`s; the two key-shape operations
  (`String.prototype.trim`, `String.prototype.startsWith`) act on the
  underlying character list `String.data` so that all definitions reduce
  in the kernel.
* A parsed JSON value is the inductive `Json`; a JS object is a field
  list with distinct names (the output of `JSON.parse`).
* HTTP headers of a response are modelled as the list of (lowercased)
  header names present, which is all `Headers.has` observes here.
* The transport primitive `fetchWithTimeout` is an explicit parameter: a
  function from the outgoing request to an outcome that is either a
  delivered response (with its parsed JSON body) or a thrown exception,
  split into the deadline abort (`AbortError`) and any other exception.
  A 2xx response whose body fails to parse is subsumed under the
  "other exception" outcome (the `SyntaxError` from `response.json()`
  lands in the same `catch` block).
-/

namespace CheckApi

/-- `Provider` values other than `"auto"` (contracts/check.ts). -/
inductive ProviderId
  | openai
  | anthropic
  | openrouter
deriving DecidableEq, Repr

/-- The `provider` field of a run result: a concrete provider or `"unknown"`. -/
inductive ResultProvider
  | known (p : ProviderId)
  | unknown
deriving DecidableEq, Repr

/-- `errorCategorySchema` (contracts/check.ts). -/
inductive ErrorCategory
  | validation
  | auth
  | network
  | provider
  | quota
  | unknown
deriving DecidableEq, BEq, Repr

/-- `checkErrorSchema` (contracts/check.ts). -/
structure CheckError where
  error_code : String
  category : ErrorCategory
  message : String
  retry_advice : String
  provider_status : String
deriving DecidableEq, Repr

/-- `availabilitySchema` (contracts/check.ts). -/
inductive Availability
  | available
  | unavailable
deriving DecidableEq, Repr

/-- `quotaStatusSchema` (contracts/check.ts). -/
inductive QuotaStatus
  | available
  | unavailable
  | unknown
deriving DecidableEq, Repr

/-- `ProviderRunMode` (providers/index.ts). -/
inductive ProviderRunMode
  | catalog
  | strict_target
deriving DecidableEq, Repr

/-- `ProviderRunResult` (providers/index.ts). `target_model : string | null`
is an `Option`. -/
structure ProviderRunResult where
  provider : ResultProvider
  availability : Availability
  models : List String
  quota_status : QuotaStatus
  errors : List CheckError
  mode : ProviderRunMode
  target_model : Option String
deriving DecidableEq, Repr

/-- A parsed JSON value (the result of `JSON.parse` / input of `JSON.stringify`). -/
inductive Json
  | null
  | bool (b : Bool)
  | num (n : Int)
  | str (s : String)
  | arr (items : List Json)
  | obj (fields : List (String × Json))

/-- JS object property read `o[k]` on a parsed-JSON object. -/
def lookupField (fields : List (String × Json)) (key : String) : Option Json :=
  fields.lookup key

/-- `String.prototype.trim` on the character list. -/
def jsTrim (s : List Char) : List Char :=
  ((s.dropWhile Char.isWhitespace).reverse.dropWhile Char.isWhitespace).reverse

/-- `s.startsWith(pre)` on character lists. -/
def jsStartsWith (s pre : List Char) : Bool :=
  pre.isPrefixOf s

/-! ### Error construction (`src/lib/check/errors.ts`) -/

/-- `defaultRetryAdvice` (errors.ts). -/
def defaultRetryAdvice (category : ErrorCategory) (errorCode : String) : String :=
  if category = .validation then
    "检查输入格式后重试"
  else if category = .auth then
    "确认 API Key 正确且具备目标模型权限"
  else if category = .network then
    "检查网络连接后重试"
  else if errorCode = "QUOTA_UNAVAILABLE" then
    "额度接口可能未开放，可前往厂商控制台查看实时额度"
  else
    "稍后重试，如持续失败请检查厂商状态与账号权限"

/-- `buildCheckError` (errors.ts); the two optional parameters fall back to
`defaultRetryAdvice` and `"unknown"`. -/
def buildCheckError (errorCode : String) (category : ErrorCategory)
    (message : String) (providerStatus : Option String)
    (retryAdvice : Option String) : CheckError :=
  { error_code := errorCode
    category := category
    message := message
    retry_advice := retryAdvice.getD (defaultRetryAdvice category errorCode)
    provider_status := providerStatus.getD "unknown" }

/-- `classifyHttpError` (errors.ts). -/
def classifyHttpError (status : Nat) (providerName : String) : CheckError :=
  if status = 401 ∨ status = 403 then
    buildCheckError "AUTH_FAILED" .auth
      (providerName ++ " 鉴权失败，API Key 可能无效或权限不足")
      (some ("http_" ++ toString status))
      (some "检查 Key 是否正确、是否过期、是否具备对应模型权限")
  else if status = 429 then
    buildCheckError "RATE_LIMITED" .provider
      (providerName ++ " 返回频率限制")
      (some "rate_limited")
      (some "稍后重试，或在厂商控制台检查限流与配额策略")
  else if 500 ≤ status then
    buildCheckError "PROVIDER_UNAVAILABLE" .provider
      (providerName ++ " 服务异常（" ++ toString status ++ "）")
      (some "degraded")
      (some "稍后重试，并关注厂商状态页是否存在服务异常")
  else
    buildCheckError "PROVIDER_ERROR" .provider
      (providerName ++ " 返回异常状态码（" ++ toString status ++ "）")
      (some ("http_" ++ toString status))
      (some "稍后重试，若持续失败请检查厂商 API 文档与账号状态")

/-! ### Adapter registry (`providers/index.ts`) -/

/-- `StrictProbeAttempt` (providers/index.ts). -/
structure StrictProbeAttempt where
  endpoint : String
  buildBody : String → Json

/-- `Adapter` (providers/index.ts). -/
structure Adapter where
  name : ProviderId
  modelsEndpoint : String
  buildHeaders : String → List (String × String)
  strictProbes : List StrictProbeAttempt

/-- Body of the chat-completions strict probe (shared shape of the openai
and openrouter first probes). -/
def chatCompletionsBody (targetModel : String) : Json :=
  .obj [("model", .str targetModel),
        ("messages", .arr [.obj [("role", .str "user"), ("content", .str "ping")]]),
        ("max_tokens", .num 1),
        ("temperature", .num 0)]

/-- Body of the `responses` strict probe (shared shape of the openai and
openrouter second probes). -/
def responsesBody (targetModel : String) : Json :=
  .obj [("model", .str targetModel),
        ("input", .str "ping"),
        ("max_output_tokens", .num 1)]

/-- Body of the anthropic `messages` strict probe. -/
def anthropicMessagesBody (targetModel : String) : Json :=
  .obj [("model", .str targetModel),
        ("max_tokens", .num 1),
        ("messages", .arr [.obj [("role", .str "user"), ("content", .str "ping")]])]

/-- `ADAPTERS` (providers/index.ts), as a function on `ProviderId`. -/
def ADAPTERS : ProviderId → Adapter
  | .openai =>
    { name := .openai
      modelsEndpoint := "https://api.openai.com/v1/models"
      buildHeaders := fun apiKey => [("Authorization", "Bearer " ++ apiKey)]
      strictProbes :=
        [{ endpoint := "https://api.openai.com/v1/chat/completions"
           buildBody := chatCompletionsBody },
         { endpoint := "https://api.openai.com/v1/responses"
           buildBody := responsesBody }] }
  | .anthropic =>
    { name := .anthropic
      modelsEndpoint := "https://api.anthropic.com/v1/models"
      buildHeaders := fun apiKey =>
        [("x-api-key", apiKey), ("anthropic-version", "2023-06-01")]
      strictProbes :=
        [{ endpoint := "https://api.anthropic.com/v1/messages"
           buildBody := anthropicMessagesBody }] }
  | .openrouter =>
    { name := .openrouter
      modelsEndpoint := "https://openrouter.ai/api/v1/models"
      buildHeaders := fun apiKey => [("Authorization", "Bearer " ++ apiKey)]
      strictProbes :=
        [{ endpoint := "https://openrouter.ai/api/v1/chat/completions"
           buildBody := chatCompletionsBody },
         { endpoint := "https://openrouter.ai/api/v1/responses"
           buildBody := responsesBody }] }

/-- `formatProviderName` (providers/index.ts). -/
def formatProviderName : ProviderId → String
  | .openai => "OpenAI"
  | .openrouter => "OpenRouter"
  | .anthropic => "Anthropic"

/-! ### Candidate detection, catalog parsing, quota resolution -/

/-- `detectProviderCandidates` (providers/index.ts): ordered rules over the
trimmed key. -/
def detectProviderCandidates (apiKey : String) : List ProviderId :=
  let normalized := jsTrim apiKey.data
  if jsStartsWith normalized "sk-ant-".data then
    [.anthropic]
  else if jsStartsWith normalized "sk-or-v1-".data ∨ jsStartsWith normalized "sk-or-".data then
    [.openrouter]
  else if jsStartsWith normalized "sk-proj-".data ∨ jsStartsWith normalized "sk-live-".data then
    [.openai]
  else if jsStartsWith normalized "sk-".data then
    [.openrouter, .openai]
  else
    []

/-- The per-entry map inside `extractModelIds`: an object's string `id`, else
`null` (`none`). -/
def modelIdOfEntry : Json → Option String
  | .obj fields =>
    match lookupField fields "id" with
    | some (.str id) => some id
    | _ => none
  | _ => none

/-- JS `Boolean` coercion applied to `string | null`: `null` and the empty
string are falsy. -/
def jsBooleanOfOptString : Option String → Bool
  | none => false
  | some s => s ≠ ""

/-- `extractModelIds` (providers/index.ts): `data`-array entries mapped to
their string `id` (else `null`), then `.filter(Boolean)`. -/
def extractModelIds (payload : Json) : List String :=
  match payload with
  | .obj fields =>
    match lookupField fields "data" with
    | some (.arr items) =>
      ((items.map modelIdOfEntry).filter jsBooleanOfOptString).filterMap (fun o => o)
    | _ => []
  | _ => []

/-- The fixed rate-limit-hint header names of `resolveQuotaStatus`. -/
def potentialQuotaHeaders : List String :=
  ["x-ratelimit-limit-requests",
   "x-ratelimit-remaining-requests",
   "x-ratelimit-limit-tokens",
   "anthropic-ratelimit-requests-limit",
   "anthropic-ratelimit-tokens-limit"]

/-- `resolveQuotaStatus` (providers/index.ts): `headers` is the list of
(lowercased) header names present on the response. -/
def resolveQuotaStatus (headers : List String) : QuotaStatus :=
  let hasRateHint := potentialQuotaHeaders.any (fun key => headers.contains key)
  if hasRateHint then .available else .unknown

/-! ### Health score (`src/lib/check/score.ts`) and next actions
(`src/lib/check/normalize.ts`) -/

/-- `calculateHealthScore` (score.ts). JS numbers on these code paths are
small integers, modelled as `Int`. -/
def calculateHealthScore (availability : Availability) (models : List String)
    (quotaStatus : QuotaStatus) (errors : List CheckError) : Int :=
  let score : Int := 0
  let score := if availability = .available then score + 50 else score
  let score := if 0 < models.length then score + 30 else score
  let score :=
    if quotaStatus = .available then score + 20
    else if quotaStatus = .unknown then score + 8
    else score
  let score :=
    if errors.any (fun e => e.category == ErrorCategory.auth) then min score 20 else score
  let score :=
    if errors.any (fun e => e.error_code == "PROVIDER_TIMEOUT") then max (score - 10) 0
    else score
  max 0 (min 100 score)

/-- The action list of `buildNextActions` (normalize.ts) before
deduplication and truncation. -/
def buildNextActionsRaw (availability : Availability) (models : List String)
    (quotaStatus : QuotaStatus) (errors : List CheckError) : List String :=
  let actions : List String := []
  let actions :=
    if availability = .available ∧ 0 < models.length then
      actions ++ ["优先尝试模型: " ++ models.headI]
    else actions
  let actions :=
    if quotaStatus ≠ .available then
      actions ++ ["额度信息暂不可获取，请前往厂商控制台查看实时额度"]
    else actions
  let retryAdvice := (errors.map (fun e => e.retry_advice)).find? (fun a => 0 < a.length)
  let actions := actions ++ retryAdvice.toList
  if actions.length = 0 then
    ["检测通过，可直接在你的应用中接入此 API Key"]
  else actions

/-- `Array.from(new Set(actions))`: keep the first occurrence of each
string, in insertion order; `seen` accumulates the strings already kept. -/
def dedupFirstSeen (seen : List String) : List String → List String
  | [] => []
  | x :: xs =>
    if x ∈ seen then dedupFirstSeen seen xs
    else x :: dedupFirstSeen (x :: seen) xs

/-- `buildNextActions` (normalize.ts): build, deduplicate set-wise
(first-seen order), truncate to 5. -/
def buildNextActions (availability : Availability) (models : List String)
    (quotaStatus : QuotaStatus) (errors : List CheckError) : List String :=
  (dedupFirstSeen [] (buildNextActionsRaw availability models quotaStatus errors)).take 5

/-! ### Transport model -/

/-- An outgoing HTTP request as assembled by the core: URL, method, the
header list handed to `fetchWithTimeout`, and the JSON body (the value
passed to `JSON.stringify`), if any. -/
structure HttpRequest where
  url : String
  method : String
  headers : List (String × String)
  body : Option Json

/-- One outcome of `fetchWithTimeout`: a delivered response (status,
present header names, parsed JSON body), the deadline abort
(`AbortError`), or any other thrown exception. -/
inductive FetchOutcome
  | success (status : Nat) (headers : List String) (body : Json)
  | abortError
  | otherError

/-- The transport primitive the core runs against: what each request comes
back with. -/
def Transport : Type := HttpRequest → FetchOutcome

/-- `response.ok`: status in [200, 300). -/
def responseOk (status : Nat) : Prop := 200 ≤ status ∧ status < 300

instance (status : Nat) : Decidable (responseOk status) :=
  inferInstanceAs (Decidable (200 ≤ status ∧ status < 300))

/-- The GET request of the catalog probe (`runSingleProviderCheck`,
non-strict branch). -/
def catalogRequest (adapter : Adapter) (apiKey : String) : HttpRequest :=
  { url := adapter.modelsEndpoint
    method := "GET"
    headers := adapter.buildHeaders apiKey
    body := none }

/-- The POST request of one strict probe (`runStrictTargetModelCheck`):
JSON content type, adapter auth headers, probe-built body. -/
def strictProbeRequest (adapter : Adapter) (apiKey targetModel : String)
    (probe : StrictProbeAttempt) : HttpRequest :=
  { url := probe.endpoint
    method := "POST"
    headers := ("Content-Type", "application/json") :: adapter.buildHeaders apiKey
    body := some (probe.buildBody targetModel) }

/-! ### Strict target prober (`runStrictTargetModelCheck`) -/

/-- The advisory quota error appended in the catalog branch. -/
def catalogQuotaError : CheckError :=
  buildCheckError "QUOTA_UNAVAILABLE" .quota
    "额度信息暂不可获取（可能是厂商接口未开放或当前 Key 无权限）"
    (some "quota_unknown")
    (some "可用性检测已完成，可稍后重试，或前往厂商控制台查看实时额度")

/-- The advisory quota error appended in the strict 2xx branch. -/
def strictQuotaError : CheckError :=
  buildCheckError "QUOTA_UNAVAILABLE" .quota
    "额度信息暂不可获取（可能是厂商接口未开放或当前 Key 无权限）"
    (some "quota_unknown")
    (some "严格权限检测已通过，可稍后重试，或前往厂商控制台查看实时额度")

/-- The `for (const probe of ...)` loop of `runStrictTargetModelCheck`,
with the running `lastUnavailableStatus` made explicit. The empty-list
case is the fall-through after the loop: the TARGET_MODEL_UNAVAILABLE
verdict. -/
def strictProbeLoop (transport : Transport) (adapter : Adapter)
    (apiKey targetModel : String) :
    List StrictProbeAttempt → Option Nat → ProviderRunResult
  | [], lastUnavailableStatus =>
    { provider := .known adapter.name
      availability := .unavailable
      models := []
      quota_status := .unknown
      mode := .strict_target
      target_model := some targetModel
      errors :=
        [buildCheckError "TARGET_MODEL_UNAVAILABLE" .provider
          ("目标模型 " ++ targetModel ++ " 在 " ++ formatProviderName adapter.name ++
            " 不可用或当前 Key 无权限")
          (some (match lastUnavailableStatus with
            | some s => "http_" ++ toString s
            | none => "target_model_unavailable"))
          (some "请确认模型 ID 与 Key 权限，或切换厂商后重试")] }
  | probe :: rest, _lastUnavailableStatus =>
    match transport (strictProbeRequest adapter apiKey targetModel probe) with
    | .success status headers _body =>
      if responseOk status then
        let quotaStatus := resolveQuotaStatus headers
        let errors := if quotaStatus ≠ .available then [strictQuotaError] else []
        { provider := .known adapter.name
          availability := .available
          models := [targetModel]
          quota_status := quotaStatus
          mode := .strict_target
          target_model := some targetModel
          errors := errors }
      else if status = 401 ∨ status = 403 then
        { provider := .known adapter.name
          availability := .unavailable
          models := []
          quota_status := .unknown
          mode := .strict_target
          target_model := some targetModel
          errors := [classifyHttpError status (formatProviderName adapter.name)] }
      else if status = 429 ∨ 500 ≤ status then
        { provider := .known adapter.name
          availability := .unavailable
          models := []
          quota_status := .unknown
          mode := .strict_target
          target_model := some targetModel
          errors := [classifyHttpError status (formatProviderName adapter.name)] }
      else if status = 400 ∨ status = 404 ∨ status = 422 then
        strictProbeLoop transport adapter apiKey targetModel rest (some status)
      else
        { provider := .known adapter.name
          availability := .unavailable
          models := []
          quota_status := .unknown
          mode := .strict_target
          target_model := some targetModel
          errors :=
            [buildCheckError "STRICT_PROBE_FAILED" .provider
              (formatProviderName adapter.name ++ " 严格权限检测失败（" ++
                toString status ++ "）")
              (some ("http_" ++ toString status))
              (some "稍后重试，若持续失败请切换厂商或确认模型 ID")] }
    | .abortError =>
      { provider := .known adapter.name
        availability := .unavailable
        models := []
        quota_status := .unknown
        mode := .strict_target
        target_model := some targetModel
        errors :=
          [buildCheckError "PROVIDER_TIMEOUT" .network
            "严格权限检测超时，请稍后重试"
            (some "timeout")
            (some "稍后重试，若频繁超时可错峰检测")] }
    | .otherError =>
      { provider := .known adapter.name
        availability := .unavailable
        models := []
        quota_status := .unknown
        mode := .strict_target
        target_model := some targetModel
        errors :=
          [buildCheckError "NETWORK_ERROR" .network
            "严格权限检测请求失败，请检查网络后重试"
            (some "network_error")
            (some "检查网络连接后重试，必要时查看厂商状态页")] }

/-- `runStrictTargetModelCheck` (providers/index.ts). -/
def runStrictTargetModelCheck (transport : Transport) (adapter : Adapter)
    (apiKey targetModel : String) : ProviderRunResult :=
  strictProbeLoop transport adapter apiKey targetModel adapter.strictProbes none

/-! ### Single-candidate check (`runSingleProviderCheck`) -/

/-- `runSingleProviderCheck` (providers/index.ts). `targetModel` being
`none` or `some ""` is the falsy `!params.targetModel` test. -/
def runSingleProviderCheck (transport : Transport)
    (selectedProvider : ProviderId) (apiKey : String) (strictMode : Bool)
    (targetModel : Option String) : ProviderRunResult :=
  let adapter := ADAPTERS selectedProvider
  if strictMode then
    match targetModel with
    | some tm =>
      if tm = "" then missingTargetModelResult selectedProvider
      else runStrictTargetModelCheck transport adapter apiKey tm
    | none => missingTargetModelResult selectedProvider
  else
    match transport (catalogRequest adapter apiKey) with
    | .success status headers body =>
      if responseOk status then
        let models := (extractModelIds body).take 50
        let quotaStatus := resolveQuotaStatus headers
        let errors := if quotaStatus ≠ .available then [catalogQuotaError] else []
        { provider := .known selectedProvider
          availability := .available
          models := models
          quota_status := quotaStatus
          mode := .catalog
          target_model := none
          errors := errors }
      else
        { provider := .known selectedProvider
          availability := .unavailable
          models := []
          quota_status := .unknown
          mode := .catalog
          target_model := none
          errors := [classifyHttpError status (formatProviderName selectedProvider)] }
    | .abortError =>
      { provider := .known selectedProvider
        availability := .unavailable
        models := []
        quota_status := .unknown
        mode := .catalog
        target_model := none
        errors :=
          [buildCheckError "PROVIDER_TIMEOUT" .network
            "检测超时，请稍后重试"
            (some "timeout")
            (some "稍后重试，若频繁超时可更换网络或错峰检测")] }
    | .otherError =>
      { provider := .known selectedProvider
        availability := .unavailable
        models := []
        quota_status := .unknown
        mode := .catalog
        target_model := none
        errors :=
          [buildCheckError "NETWORK_ERROR" .network
            "请求厂商 API 失败，请检查网络后重试"
            (some "network_error")
            (some "检查网络连接后重试，必要时查看厂商状态页")] }
where
  /-- The immediate MISSING_TARGET_MODEL validation failure. -/
  missingTargetModelResult (selectedProvider : ProviderId) : ProviderRunResult :=
    { provider := .known selectedProvider
      availability := .unavailable
      models := []
      quota_status := .unknown
      mode := .strict_target
      target_model := none
      errors :=
        [buildCheckError "MISSING_TARGET_MODEL" .validation
          "已启用严格权限检测，请填写目标模型 ID"
          (some "missing_target_model")
          (some "例如填写 gpt-5.3-codex 后再检测")] }

/-! ### Orchestrator (`runProviderCheck`) -/

/-- Placeholder behind the TypeScript non-null assertion `firstFailure!`;
never produced when the candidate list is non-empty. -/
def emptyRunResult : ProviderRunResult :=
  { provider := .unknown
    availability := .unavailable
    models := []
    quota_status := .unknown
    mode := .catalog
    target_model := none
    errors := [] }

/-- The `for (const provider of candidates)` loop of `runProviderCheck`,
with the three retained failures made explicit; the empty-list case is
the post-loop `authFailure ?? strictUnavailableFailure ?? firstFailure!`. -/
def runCandidateLoop (transport : Transport) (apiKey : String)
    (strictMode : Bool) (targetModel : Option String) :
    List ProviderId → Option ProviderRunResult → Option ProviderRunResult →
      Option ProviderRunResult → ProviderRunResult
  | [], firstFailure, authFailure, strictUnavailableFailure =>
    match authFailure with
    | some r => r
    | none =>
      match strictUnavailableFailure with
      | some r => r
      | none => firstFailure.getD emptyRunResult
  | p :: rest, firstFailure, authFailure, strictUnavailableFailure =>
    let result := runSingleProviderCheck transport p apiKey strictMode targetModel
    if result.availability = .available then result
    else
      let firstFailure := some (firstFailure.getD result)
      if result.errors.any (fun e => e.error_code == "AUTH_FAILED") then
        runCandidateLoop transport apiKey strictMode targetModel rest
          firstFailure (some result) strictUnavailableFailure
      else if strictMode ∧
          result.errors.any (fun e => e.error_code == "TARGET_MODEL_UNAVAILABLE") then
        runCandidateLoop transport apiKey strictMode targetModel rest
          firstFailure authFailure (some result)
      else result

/-- The immediate PROVIDER_NOT_DETECTED verdict for an empty candidate
list. -/
def providerNotDetectedResult (strictMode : Bool)
    (targetModel : Option String) : ProviderRunResult :=
  { provider := .unknown
    availability := .unavailable
    models := []
    quota_status := .unknown
    mode := if strictMode then .strict_target else .catalog
    target_model := targetModel
    errors :=
      [buildCheckError "PROVIDER_NOT_DETECTED" .validation
        "无法自动识别厂商，请手动选择厂商后重试"
        (some "unsupported_provider")
        (some "选择 OpenRouter、OpenAI 或 Anthropic 后再次检测")] }

/-- `runProviderCheck` (providers/index.ts): `provider = none` is the
`"auto"` selector. -/
def runProviderCheck (transport : Transport) (provider : Option ProviderId)
    (apiKey : String) (strictMode : Bool) (targetModel : Option String) :
    ProviderRunResult :=
  let candidates :=
    match provider with
    | none => detectProviderCandidates apiKey
    | some p => [p]
  if candidates.isEmpty then providerNotDetectedResult strictMode targetModel
  else runCandidateLoop transport apiKey strictMode targetModel candidates none none none

/-! ### Claim-side reference definitions and concrete transport fixtures -/

/-- Health-score reference computation, following the claim's wording (C4):
base 0; plus 50 if available; plus 30 if the model list is non-empty; plus
20 / 8 / 0 by quota status; then clamped to at most 20 if any error has
category auth; then minus 10 floored at 0 if any error has kind
PROVIDER_TIMEOUT, in that order; final result clamped to [0, 100]. -/
def healthScoreClaimReference (availability : Availability) (models : List String)
    (quotaStatus : QuotaStatus) (errors : List CheckError) : Int :=
  let base : Int :=
    (if availability = .available then 50 else 0) +
    (if models ≠ [] then 30 else 0) +
    (if quotaStatus = .available then 20
     else if quotaStatus = .unknown then 8 else 0)
  let capped :=
    if errors.any (fun e => e.category == ErrorCategory.auth) then min base 20 else base
  let floored :=
    if errors.any (fun e => e.error_code == "PROVIDER_TIMEOUT") then max (capped - 10) 0
    else capped
  max 0 (min 100 floored)

/-- Models list as claim C5 words it: the first at-most-50 ids collected
from the `data` entries in response order, dropping any entry lacking a
string id. -/
def claimCatalogModels (body : Json) : List String :=
  match body with
  | .obj fields =>
    match lookupField fields "data" with
    | some (.arr items) => (items.filterMap modelIdOfEntry).take 50
    | _ => []
  | _ => []

/-- Models list as claim C5 amended: additionally dropping entries whose
string id is empty (the source filters with JS truthiness, so `""` is
dropped too). -/
def claimCatalogModelsAmended (body : Json) : List String :=
  match body with
  | .obj fields =>
    match lookupField fields "data" with
    | some (.arr items) =>
      (items.filterMap (fun item =>
        match modelIdOfEntry item with
        | some id => if id = "" then none else some id
        | none => none)).take 50
    | _ => []
  | _ => []

/-- A catalog body whose single `data` entry has the empty string as id. -/
def emptyIdBody : Json :=
  .obj [("data", .arr [.obj [("id", .str "")]])]

/-- Transport fixture: every request is answered 200 with `emptyIdBody`. -/
def transportEmptyId : Transport :=
  fun _ => .success 200 [] emptyIdBody

/-- Transport fixture for the strict probe sequence: the openai
chat-completions probe answers 404, the openai `responses` probe 200. -/
def transport404Then200 : Transport := fun req =>
  if req.url = "https://api.openai.com/v1/chat/completions" then .success 404 [] .null
  else if req.url = "https://api.openai.com/v1/responses" then .success 200 [] .null
  else .otherError

/-- Transport fixture for orchestrator fallback: the openrouter catalog
answers 401 (auth failure), the openai catalog 200 with one model. -/
def transportAuthThenOk : Transport := fun req =>
  if req.url = "https://openrouter.ai/api/v1/models" then .success 401 [] .null
  else if req.url = "https://api.openai.com/v1/models" then
    .success 200 [] (.obj [("data", .arr [.obj [("id", .str "gpt-4o")]])])
  else .otherError

/-- Transport fixture for orchestrator non-fallback: the openrouter
catalog throws a non-abort exception; every other request succeeds. -/
def transportNetFailA : Transport := fun req =>
  if req.url = "https://openrouter.ai/api/v1/models" then .otherError
  else .success 200 [] (.obj [("data", .arr [])])

/-- Like `transportNetFailA` but every other request aborts instead:
distinguishable from `transportNetFailA` only by requests past the first
candidate. -/
def transportNetFailB : Transport := fun req =>
  if req.url = "https://openrouter.ai/api/v1/models" then .otherError
  else .abortError

/-! ### Helper lemmas -/

lemma jsStartsWith_mono {t p q : List Char} (h : jsStartsWith t p = true)
    (hqp : q <+: p) : jsStartsWith t q = true := by
  unfold jsStartsWith at h ⊢
  rw [List.isPrefixOf_iff_prefix] at h ⊢
  exact hqp.trans h

lemma jsStartsWith_incomp {t p q : List Char} (h : jsStartsWith t p = true)
    (hpq : ¬ p <+: q) (hqp : ¬ q <+: p) : jsStartsWith t q = false := by
  rw [← Bool.not_eq_true]
  intro hq
  unfold jsStartsWith at h hq
  rw [List.isPrefixOf_iff_prefix] at h hq
  rcases List.prefix_or_prefix_of_prefix h hq with hc | hc
  · exact hpq hc
  · exact hqp hc

lemma dedupFirstSeen_sublist (l : List String) :
    ∀ seen, List.Sublist (dedupFirstSeen seen l) l := by
  induction l with
  | nil => intro seen; simp [dedupFirstSeen]
  | cons x xs ih =>
    intro seen
    by_cases hx : x ∈ seen
    · simpa [dedupFirstSeen, hx] using (ih seen).trans (List.sublist_cons_self x xs)
    · simpa [dedupFirstSeen, hx] using (ih (x :: seen)).cons₂ x

lemma dedupFirstSeen_nodup_and_disjoint (l : List String) :
    ∀ seen, (dedupFirstSeen seen l).Nodup ∧
      ∀ y ∈ dedupFirstSeen seen l, y ∉ seen := by
  induction l with
  | nil => intro seen; simp [dedupFirstSeen]
  | cons x xs ih =>
    intro seen
    by_cases hx : x ∈ seen
    · simpa [dedupFirstSeen, hx] using ih seen
    · have ihx := ih (x :: seen)
      refine ⟨?_, ?_⟩
      · simp only [dedupFirstSeen, hx, if_false, List.nodup_cons]
        refine ⟨fun hmem => ?_, ihx.1⟩
        exact (ihx.2 x hmem) (List.mem_cons_self x seen)
      · intro y hy
        simp only [dedupFirstSeen, hx, if_false, List.mem_cons] at hy
        rcases hy with rfl | hy
        · exact hx
        · exact fun hseen => (ihx.2 y hy) (List.mem_cons_of_mem x hseen)

/-! ### Claim theorems -/

/-- C3: for every raw key string, the candidate detector (applied to the
trimmed string, rules in order, first match wins) returns exactly
[anthropic] for a `sk-ant-` key; exactly [openrouter] for `sk-or-v1-` or
`sk-or-`; exactly [openai] for `sk-proj-` or `sk-live-`; exactly
[openrouter, openai] in that order for a bare `sk-` key matching none of
the more specific rules; and [] for a key not starting with `sk-`. -/
theorem C3_candidate_detector (apiKey : String) :
    (jsStartsWith (jsTrim apiKey.data) "sk-ant-".data = true →
      detectProviderCandidates apiKey = [ProviderId.anthropic]) ∧
    ((jsStartsWith (jsTrim apiKey.data) "sk-or-v1-".data = true ∨
        jsStartsWith (jsTrim apiKey.data) "sk-or-".data = true) →
      detectProviderCandidates apiKey = [ProviderId.openrouter]) ∧
    ((jsStartsWith (jsTrim apiKey.data) "sk-proj-".data = true ∨
        jsStartsWith (jsTrim apiKey.data) "sk-live-".data = true) →
      detectProviderCandidates apiKey = [ProviderId.openai]) ∧
    (jsStartsWith (jsTrim apiKey.data) "sk-".data = true →
      jsStartsWith (jsTrim apiKey.data) "sk-ant-".data ≠ true →
      jsStartsWith (jsTrim apiKey.data) "sk-or-v1-".data ≠ true →
      jsStartsWith (jsTrim apiKey.data) "sk-or-".data ≠ true →
      jsStartsWith (jsTrim apiKey.data) "sk-proj-".data ≠ true →
      jsStartsWith (jsTrim apiKey.data) "sk-live-".data ≠ true →
      detectProviderCandidates apiKey = [ProviderId.openrouter, ProviderId.openai]) ∧
    (jsStartsWith (jsTrim apiKey.data) "sk-".data ≠ true →
      detectProviderCandidates apiKey = []) := by
  refine ⟨?_, ?_, ?_, ?_, ?_⟩
  · intro h
    simp [detectProviderCandidates, h]
  · intro h
    have hor : jsStartsWith (jsTrim apiKey.data) "sk-or-".data = true := by
      rcases h with h | h
      · exact jsStartsWith_mono h (by decide)
      · exact h
    have hant : jsStartsWith (jsTrim apiKey.data) "sk-ant-".data = false :=
      jsStartsWith_incomp hor (by decide) (by decide)
    simp [detectProviderCandidates, hant, hor]
  · intro h
    have hsp : jsStartsWith (jsTrim apiKey.data) "sk-proj-".data = true ∨
        jsStartsWith (jsTrim apiKey.data) "sk-live-".data = true := h
    have hant : jsStartsWith (jsTrim apiKey.data) "sk-ant-".data = false := by
      rcases hsp with h' | h'
      · exact jsStartsWith_incomp h' (by decide) (by decide)
      · exact jsStartsWith_incomp h' (by decide) (by decide)
    have hv1 : jsStartsWith (jsTrim apiKey.data) "sk-or-v1-".data = false := by
      rcases hsp with h' | h'
      · exact jsStartsWith_incomp h' (by decide) (by decide)
      · exact jsStartsWith_incomp h' (by decide) (by decide)
    have hor : jsStartsWith (jsTrim apiKey.data) "sk-or-".data = false := by
      rcases hsp with h' | h'
      · exact jsStartsWith_incomp h' (by decide) (by decide)
      · exact jsStartsWith_incomp h' (by decide) (by decide)
    rcases hsp with h' | h' <;>
      simp [detectProviderCandidates, hant, hv1, hor, h']
  · intro hsk hant hv1 hor hproj hlive
    simp only [ne_eq, Bool.not_eq_true] at hant hv1 hor hproj hlive
    simp [detectProviderCandidates, hant, hv1, hor, hproj, hlive, hsk]
  · intro hsk
    simp only [ne_eq, Bool.not_eq_true] at hsk
    have notOf : ∀ p : List Char, "sk-".data <+: p →
        jsStartsWith (jsTrim apiKey.data) p = false := by
      intro p hp
      cases hb : jsStartsWith (jsTrim apiKey.data) p with
      | false => rfl
      | true =>
        have := jsStartsWith_mono hb hp
        rw [hsk] at this
        exact absurd this (by simp)
    have hant := notOf "sk-ant-".data (by decide)
    have hv1 := notOf "sk-or-v1-".data (by decide)
    have hor := notOf "sk-or-".data (by decide)
    have hproj := notOf "sk-proj-".data (by decide)
    have hlive := notOf "sk-live-".data (by decide)
    simp [detectProviderCandidates, hant, hv1, hor, hproj, hlive, hsk]

/-- Closed instantiation of `C3_candidate_detector` on concrete keys of
each shape. -/
theorem C3_candidate_detector_witness :
    detectProviderCandidates "sk-ant-abc123" = [ProviderId.anthropic] ∧
    detectProviderCandidates "sk-or-v1-abc" = [ProviderId.openrouter] ∧
    detectProviderCandidates "sk-proj-abc" = [ProviderId.openai] ∧
    detectProviderCandidates " sk-1234567890 " = [ProviderId.openrouter, ProviderId.openai] ∧
    detectProviderCandidates "hello-world" = [] :=
  ⟨(C3_candidate_detector "sk-ant-abc123").1 (by decide),
   (C3_candidate_detector "sk-or-v1-abc").2.1 (Or.inl (by decide)),
   (C3_candidate_detector "sk-proj-abc").2.2.1 (Or.inl (by decide)),
   (C3_candidate_detector " sk-1234567890 ").2.2.2.1 (by decide) (by decide)
     (by decide) (by decide) (by decide) (by decide),
   (C3_candidate_detector "hello-world").2.2.2.2 (by decide)⟩

set_option maxHeartbeats 1600000 in
/-- C4: for every input, the health score equals the claim's reference
computation, is always in [0, 100], and is at most 20 whenever any error
has category auth. -/
theorem C4_health_score (availability : Availability) (models : List String)
    (quotaStatus : QuotaStatus) (errors : List CheckError) :
    calculateHealthScore availability models quotaStatus errors =
      healthScoreClaimReference availability models quotaStatus errors ∧
    0 ≤ calculateHealthScore availability models quotaStatus errors ∧
    calculateHealthScore availability models quotaStatus errors ≤ 100 ∧
    (errors.any (fun e => e.category == ErrorCategory.auth) = true →
      calculateHealthScore availability models quotaStatus errors ≤ 20) := by
  have hm : (0 < models.length) ↔ models ≠ [] := by
    cases models <;> simp
  refine ⟨?_, ?_, ?_, fun hauth => ?_⟩
  · simp only [calculateHealthScore, healthScoreClaimReference, hm]
    split_ifs <;> omega
  · simp only [calculateHealthScore]
    split_ifs <;> omega
  · simp only [calculateHealthScore]
    split_ifs <;> omega
  · simp only [calculateHealthScore, hauth]
    split_ifs <;> omega

/-- Closed instantiation of `C4_health_score`: an auth failure caps the
score at 20 even with every other positive signal present. -/
theorem C4_health_score_witness :
    calculateHealthScore .available ["gpt-4o"] .available
      [buildCheckError "AUTH_FAILED" .auth "m" none none] ≤ 20 :=
  (C4_health_score .available ["gpt-4o"] .available
    [buildCheckError "AUTH_FAILED" .auth "m" none none]).2.2.2 (by decide)

/-- C9: the next-action list has at most 5 entries, no duplicate strings,
and is an order-preserving selection (a sublist) of the raw action list,
keeping first occurrences. -/
theorem C9_next_actions (availability : Availability) (models : List String)
    (quotaStatus : QuotaStatus) (errors : List CheckError) :
    (buildNextActions availability models quotaStatus errors).length ≤ 5 ∧
    (buildNextActions availability models quotaStatus errors).Nodup ∧
    List.Sublist (buildNextActions availability models quotaStatus errors)
      (buildNextActionsRaw availability models quotaStatus errors) := by
  refine ⟨?_, ?_, ?_⟩
  · simp only [buildNextActions, List.length_take]
    exact min_le_left _ _
  · exact List.Nodup.sublist (List.take_sublist 5 _)
      (dedupFirstSeen_nodup_and_disjoint _ []).1
  · exact (List.take_sublist 5 _).trans (dedupFirstSeen_sublist _ [])

/-! ### Quota-status invariant (C10) -/

lemma resolveQuotaStatus_ne_unavailable (headers : List String) :
    resolveQuotaStatus headers ≠ .unavailable := by
  simp only [resolveQuotaStatus]
  split <;> simp

lemma quotaSound_strictProbeLoop (transport : Transport) (adapter : Adapter)
    (apiKey targetModel : String) :
    ∀ (probes : List StrictProbeAttempt) (last : Option Nat),
      (strictProbeLoop transport adapter apiKey targetModel probes last).quota_status ≠
        .unavailable ∧
      ((strictProbeLoop transport adapter apiKey targetModel probes last).availability =
          .unavailable →
        (strictProbeLoop transport adapter apiKey targetModel probes last).quota_status =
          .unknown) := by
  intro probes
  induction probes with
  | nil => intro last; simp [strictProbeLoop]
  | cons probe rest ih =>
    intro last
    simp only [strictProbeLoop]
    cases transport (strictProbeRequest adapter apiKey targetModel probe) with
    | success status headers body =>
      by_cases h1 : responseOk status
      · refine ⟨?_, ?_⟩
        · simpa [h1] using resolveQuotaStatus_ne_unavailable headers
        · intro h
          simp [h1] at h
      · by_cases h2 : status = 401 ∨ status = 403
        · simp [h1, h2]
        · by_cases h3 : status = 429 ∨ 500 ≤ status
          · simp [h1, h2, h3]
          · by_cases h4 : status = 400 ∨ status = 404 ∨ status = 422
            · simpa [h1, h2, h3, h4] using ih (some status)
            · simp [h1, h2, h3, h4]
    | abortError => exact ⟨by simp, by simp⟩
    | otherError => exact ⟨by simp, by simp⟩

lemma quotaSound_runSingleProviderCheck (transport : Transport) (p : ProviderId)
    (apiKey : String) (strictMode : Bool) (targetModel : Option String) :
    (runSingleProviderCheck transport p apiKey strictMode targetModel).quota_status ≠
      .unavailable ∧
    ((runSingleProviderCheck transport p apiKey strictMode targetModel).availability =
        .unavailable →
      (runSingleProviderCheck transport p apiKey strictMode targetModel).quota_status =
        .unknown) := by
  unfold runSingleProviderCheck
  cases strictMode with
  | true =>
    simp only [if_true]
    cases targetModel with
    | none => exact ⟨by simp [runSingleProviderCheck.missingTargetModelResult],
        by simp [runSingleProviderCheck.missingTargetModelResult]⟩
    | some tm =>
      by_cases htm : tm = ""
      · simp only [htm, if_true]
        exact ⟨by simp [runSingleProviderCheck.missingTargetModelResult],
          by simp [runSingleProviderCheck.missingTargetModelResult]⟩
      · simp only [htm, if_false]
        exact quotaSound_strictProbeLoop transport _ apiKey tm _ none
  | false =>
    simp only [Bool.false_eq_true, if_false]
    cases transport (catalogRequest (ADAPTERS p) apiKey) with
    | success status headers body =>
      by_cases h1 : responseOk status
      · refine ⟨?_, ?_⟩
        · simpa [h1] using resolveQuotaStatus_ne_unavailable headers
        · intro h
          simp [h1] at h
      · simp [h1]
    | abortError => exact ⟨by simp, by simp⟩
    | otherError => exact ⟨by simp, by simp⟩

lemma quotaSound_runCandidateLoop (transport : Transport) (apiKey : String)
    (strictMode : Bool) (targetModel : Option String) :
    ∀ (cands : List ProviderId) (ff af sf : Option ProviderRunResult),
      (∀ r, ff = some r → r.quota_status ≠ .unavailable ∧
        (r.availability = .unavailable → r.quota_status = .unknown)) →
      (∀ r, af = some r → r.quota_status ≠ .unavailable ∧
        (r.availability = .unavailable → r.quota_status = .unknown)) →
      (∀ r, sf = some r → r.quota_status ≠ .unavailable ∧
        (r.availability = .unavailable → r.quota_status = .unknown)) →
      (runCandidateLoop transport apiKey strictMode targetModel cands ff af sf).quota_status ≠
        .unavailable ∧
      ((runCandidateLoop transport apiKey strictMode targetModel cands ff af sf).availability =
          .unavailable →
        (runCandidateLoop transport apiKey strictMode targetModel cands ff af sf).quota_status =
          .unknown) := by
  intro cands
  induction cands with
  | nil =>
    intro ff af sf hf ha hs
    cases af with
    | some r => exact ha r rfl
    | none =>
      cases sf with
      | some r => exact hs r rfl
      | none =>
        cases ff with
        | some r => exact hf r rfl
        | none => exact ⟨by simp [runCandidateLoop, emptyRunResult],
            by simp [runCandidateLoop, emptyRunResult]⟩
  | cons p rest ih =>
    intro ff af sf hf ha hs
    have hr := quotaSound_runSingleProviderCheck transport p apiKey strictMode targetModel
    simp only [runCandidateLoop]
    split_ifs with h1 h2 h3
    · exact hr
    · refine ih _ _ _ ?_ ?_ hs
      · intro r' hr'
        injection hr' with h
        subst h
        cases ff with
        | some f => simpa using hf f rfl
        | none => simpa using hr
      · intro r' hr'
        injection hr' with h
        subst h
        exact hr
    · refine ih _ _ _ ?_ ha ?_
      · intro r' hr'
        injection hr' with h
        subst h
        cases ff with
        | some f => simpa using hf f rfl
        | none => simpa using hr
      · intro r' hr'
        injection hr' with h
        subst h
        exact hr
    · exact hr

/-- C10: every result produced by the core has `quota_status` equal to
available or unknown, never unavailable: header-based quota resolution only
distinguishes presence of a rate-limit-hint header, and every failure path
sets unknown; hence the health scorer's +0 branch for explicitly
unavailable quota is unreachable on core outputs. -/
theorem C10_quota_never_unavailable (transport : Transport)
    (provider : Option ProviderId) (apiKey : String) (strictMode : Bool)
    (targetModel : Option String) :
    (∀ headers, resolveQuotaStatus headers = .available ∨
      resolveQuotaStatus headers = .unknown) ∧
    (runProviderCheck transport provider apiKey strictMode targetModel).quota_status ≠
      QuotaStatus.unavailable ∧
    ((runProviderCheck transport provider apiKey strictMode targetModel).availability =
        .unavailable →
      (runProviderCheck transport provider apiKey strictMode targetModel).quota_status =
        QuotaStatus.unknown) := by
  refine ⟨?_, ?_⟩
  · intro headers
    simp only [resolveQuotaStatus]
    split
    · exact Or.inl rfl
    · exact Or.inr rfl
  · simp only [runProviderCheck]
    split_ifs with h
    · exact ⟨by simp [providerNotDetectedResult], by simp [providerNotDetectedResult]⟩
    · exact quotaSound_runCandidateLoop transport apiKey strictMode targetModel _
        none none none (by intro r h; cases h) (by intro r h; cases h)
        (by intro r h; cases h)

/-- Closed instantiation of `C10_quota_never_unavailable` on a failing
transport: the failure result's quota status is unknown. -/
theorem C10_quota_never_unavailable_witness :
    (runProviderCheck (fun _ => FetchOutcome.otherError) none "sk-1234567890"
      false none).quota_status = QuotaStatus.unknown :=
  (C10_quota_never_unavailable (fun _ => FetchOutcome.otherError) none
    "sk-1234567890" false none).2.2 (by decide)

lemma filter_truthy_eq_filterMap (f : Json → Option String) (items : List Json) :
    ((items.map f).filter jsBooleanOfOptString).filterMap (fun o => o) =
      items.filterMap (fun item =>
        match f item with
        | some id => if id = "" then none else some id
        | none => none) := by
  induction items with
  | nil => rfl
  | cons x xs ih =>
    cases hfx : f x with
    | none => simp [jsBooleanOfOptString, hfx, ih]
    | some id =>
      by_cases hid : id = ""
      · simp [jsBooleanOfOptString, hfx, hid, ih]
      · simp [jsBooleanOfOptString, hfx, hid, ih]

lemma extractModelIds_take_eq (body : Json) :
    (extractModelIds body).take 50 = claimCatalogModelsAmended body := by
  cases body with
  | obj fields =>
    simp only [extractModelIds, claimCatalogModelsAmended]
    cases h : lookupField fields "data" with
    | none => rfl
    | some v =>
      cases v with
      | arr items => exact congrArg (List.take 50) (filter_truthy_eq_filterMap modelIdOfEntry items)
      | null => rfl
      | bool b => rfl
      | num n => rfl
      | str s => rfl
      | obj o => rfl
  | null => rfl
  | bool b => rfl
  | num n => rfl
  | str s => rfl
  | arr items => rfl

/-- C5 counterexample: on the 2xx catalog response whose single `data`
entry carries the empty-string id, the code returns `models = []`, while
the claim's collection rule (drop only entries lacking a string id) keeps
the empty id. -/
theorem C5_counterexample :
    (runSingleProviderCheck transportEmptyId .openai "sk-test" false none).availability =
      Availability.available ∧
    (runSingleProviderCheck transportEmptyId .openai "sk-test" false none).models = [] ∧
    claimCatalogModels emptyIdBody = [""] ∧
    (runSingleProviderCheck transportEmptyId .openai "sk-test" false none).models ≠
      claimCatalogModels emptyIdBody := by
  refine ⟨by decide, by decide, by decide, by decide⟩

/-- C5 (amended): for every 2xx catalog response, availability is
available and models is the first at-most-50 ids collected from the
`data` entries in response order, dropping any entry lacking a non-empty
string id; a body that is not a JSON object with a `data` array yields
`models = []`. -/
theorem C5_catalog_models (transport : Transport) (p : ProviderId)
    (apiKey : String) (status : Nat) (headers : List String) (body : Json)
    (hfetch : transport (catalogRequest (ADAPTERS p) apiKey) =
      FetchOutcome.success status headers body)
    (hok : responseOk status) :
    (runSingleProviderCheck transport p apiKey false none).availability =
      Availability.available ∧
    (runSingleProviderCheck transport p apiKey false none).models =
      claimCatalogModelsAmended body := by
  simp only [runSingleProviderCheck, Bool.false_eq_true, if_false]
  rw [hfetch]
  simp [hok, extractModelIds_take_eq]

/-- Closed instantiation of `C5_catalog_models` on a concrete catalog
response mixing valid, id-less and empty-id entries. -/
theorem C5_catalog_models_witness :
    (runSingleProviderCheck
      (fun _ => FetchOutcome.success 200 []
        (Json.obj [("data", Json.arr
          [Json.obj [("id", Json.str "gpt-4o")],
           Json.obj [("object", Json.str "model")],
           Json.obj [("id", Json.str "")],
           Json.obj [("id", Json.str "gpt-4o-mini")]])]))
      .openai "sk-test" false none).models =
      claimCatalogModelsAmended
        (Json.obj [("data", Json.arr
          [Json.obj [("id", Json.str "gpt-4o")],
           Json.obj [("object", Json.str "model")],
           Json.obj [("id", Json.str "")],
           Json.obj [("id", Json.str "gpt-4o-mini")]])]) :=
  (C5_catalog_models
    (fun _ => FetchOutcome.success 200 []
      (Json.obj [("data", Json.arr
        [Json.obj [("id", Json.str "gpt-4o")],
         Json.obj [("object", Json.str "model")],
         Json.obj [("id", Json.str "")],
         Json.obj [("id", Json.str "gpt-4o-mini")]])]))
    .openai "sk-test" 200 []
    (Json.obj [("data", Json.arr
      [Json.obj [("id", Json.str "gpt-4o")],
       Json.obj [("object", Json.str "model")],
       Json.obj [("id", Json.str "")],
       Json.obj [("id", Json.str "gpt-4o-mini")]])])
    rfl (by decide)).2

/-- C6: on a 2xx probe response — catalog or strict — whose headers carry
none of the fixed rate-limit-hint header names, exactly one advisory
QUOTA_UNAVAILABLE error of category quota is appended and availability
stays available; when such a header is present, quota_status is available
and no QUOTA_UNAVAILABLE error is appended. -/
theorem C6_quota_advisory :
    (∀ (transport : Transport) (p : ProviderId) (apiKey : String)
        (status : Nat) (headers : List String) (body : Json),
      transport (catalogRequest (ADAPTERS p) apiKey) =
        FetchOutcome.success status headers body →
      responseOk status →
      ((potentialQuotaHeaders.any fun key => headers.contains key) = false →
        (runSingleProviderCheck transport p apiKey false none).errors = [catalogQuotaError] ∧
        (runSingleProviderCheck transport p apiKey false none).availability =
          Availability.available ∧
        (runSingleProviderCheck transport p apiKey false none).quota_status =
          QuotaStatus.unknown) ∧
      ((potentialQuotaHeaders.any fun key => headers.contains key) = true →
        (runSingleProviderCheck transport p apiKey false none).errors = [] ∧
        (runSingleProviderCheck transport p apiKey false none).quota_status =
          QuotaStatus.available)) ∧
    (∀ (transport : Transport) (adapter : Adapter) (apiKey targetModel : String)
        (probe : StrictProbeAttempt) (rest : List StrictProbeAttempt)
        (last : Option Nat) (status : Nat) (headers : List String) (body : Json),
      transport (strictProbeRequest adapter apiKey targetModel probe) =
        FetchOutcome.success status headers body →
      responseOk status →
      ((potentialQuotaHeaders.any fun key => headers.contains key) = false →
        (strictProbeLoop transport adapter apiKey targetModel (probe :: rest) last).errors =
          [strictQuotaError] ∧
        (strictProbeLoop transport adapter apiKey targetModel (probe :: rest) last).availability =
          Availability.available ∧
        (strictProbeLoop transport adapter apiKey targetModel (probe :: rest) last).quota_status =
          QuotaStatus.unknown) ∧
      ((potentialQuotaHeaders.any fun key => headers.contains key) = true →
        (strictProbeLoop transport adapter apiKey targetModel (probe :: rest) last).errors = [] ∧
        (strictProbeLoop transport adapter apiKey targetModel (probe :: rest) last).quota_status =
          QuotaStatus.available)) ∧
    catalogQuotaError.error_code = "QUOTA_UNAVAILABLE" ∧
    catalogQuotaError.category = ErrorCategory.quota ∧
    strictQuotaError.error_code = "QUOTA_UNAVAILABLE" ∧
    strictQuotaError.category = ErrorCategory.quota := by
  refine ⟨?_, ?_, rfl, rfl, rfl, rfl⟩
  · intro transport p apiKey status headers body hfetch hok
    have hrun : ∀ q, resolveQuotaStatus headers = q →
        runSingleProviderCheck transport p apiKey false none =
          { provider := .known p
            availability := .available
            models := (extractModelIds body).take 50
            quota_status := q
            mode := .catalog
            target_model := none
            errors := if q ≠ QuotaStatus.available then [catalogQuotaError] else [] } := by
      intro q hq
      simp only [runSingleProviderCheck, Bool.false_eq_true, if_false]
      rw [hfetch]
      simp [hok, hq]
    constructor
    · intro hhint
      have hq : resolveQuotaStatus headers = QuotaStatus.unknown := by
        unfold resolveQuotaStatus
        rw [hhint]
        rfl
      rw [hrun _ hq]
      simp
    · intro hhint
      have hq : resolveQuotaStatus headers = QuotaStatus.available := by
        unfold resolveQuotaStatus
        rw [hhint]
        rfl
      rw [hrun _ hq]
      simp
  · intro transport adapter apiKey targetModel probe rest last status headers body hfetch hok
    have hrun : ∀ q, resolveQuotaStatus headers = q →
        strictProbeLoop transport adapter apiKey targetModel (probe :: rest) last =
          { provider := .known adapter.name
            availability := .available
            models := [targetModel]
            quota_status := q
            mode := .strict_target
            target_model := some targetModel
            errors := if q ≠ QuotaStatus.available then [strictQuotaError] else [] } := by
      intro q hq
      simp only [strictProbeLoop]
      rw [hfetch]
      simp [hok, hq]
    constructor
    · intro hhint
      have hq : resolveQuotaStatus headers = QuotaStatus.unknown := by
        unfold resolveQuotaStatus
        rw [hhint]
        rfl
      rw [hrun _ hq]
      simp
    · intro hhint
      have hq : resolveQuotaStatus headers = QuotaStatus.available := by
        unfold resolveQuotaStatus
        rw [hhint]
        rfl
      rw [hrun _ hq]
      simp

/-- Closed instantiation of `C6_quota_advisory`: a 2xx catalog response
without rate-limit headers appends the advisory error yet stays
available; with such a header present, no advisory error appears. -/
theorem C6_quota_advisory_witness :
    (runSingleProviderCheck (fun _ => FetchOutcome.success 200 [] Json.null)
      .openai "sk-test" false none).errors = [catalogQuotaError] ∧
    (runSingleProviderCheck
      (fun _ => FetchOutcome.success 200 ["x-ratelimit-limit-requests"] Json.null)
      .openai "sk-test" false none).errors = [] :=
  ⟨((C6_quota_advisory.1 (fun _ => FetchOutcome.success 200 [] Json.null)
      .openai "sk-test" 200 [] Json.null rfl (by decide)).1 (by decide)).1,
   ((C6_quota_advisory.1
      (fun _ => FetchOutcome.success 200 ["x-ratelimit-limit-requests"] Json.null)
      .openai "sk-test" 200 ["x-ratelimit-limit-requests"] Json.null rfl
      (by decide)).2 (by decide)).1⟩

/-- C7: in strict mode with an absent or empty target model, the check
returns the MISSING_TARGET_MODEL validation failure, and no network call
is made: the result is the same fixed record for every transport. -/
theorem C7_missing_target_model (transport transportAlt : Transport)
    (p : ProviderId) (apiKey : String) (targetModel : Option String)
    (h : targetModel = none ∨ targetModel = some "") :
    runSingleProviderCheck transport p apiKey true targetModel =
      runSingleProviderCheck.missingTargetModelResult p ∧
    (runSingleProviderCheck transport p apiKey true targetModel).availability =
      Availability.unavailable ∧
    (runSingleProviderCheck transport p apiKey true targetModel).errors.map
        (fun e => (e.error_code, e.category)) =
      [("MISSING_TARGET_MODEL", ErrorCategory.validation)] ∧
    runSingleProviderCheck transport p apiKey true targetModel =
      runSingleProviderCheck transportAlt p apiKey true targetModel := by
  rcases h with rfl | rfl <;> exact ⟨rfl, rfl, rfl, rfl⟩

/-- Closed instantiation of `C7_missing_target_model` for both the absent
and the empty target model, under transports that would otherwise answer. -/
theorem C7_missing_target_model_witness :
    runSingleProviderCheck (fun _ => FetchOutcome.success 200 [] Json.null)
      .openai "sk-test" true none =
      runSingleProviderCheck.missingTargetModelResult .openai ∧
    runSingleProviderCheck (fun _ => FetchOutcome.success 200 [] Json.null)
      .anthropic "sk-test" true (some "") =
      runSingleProviderCheck.missingTargetModelResult .anthropic :=
  ⟨(C7_missing_target_model (fun _ => FetchOutcome.success 200 [] Json.null)
      (fun _ => FetchOutcome.abortError) .openai "sk-test" none (Or.inl rfl)).1,
   (C7_missing_target_model (fun _ => FetchOutcome.success 200 [] Json.null)
      (fun _ => FetchOutcome.abortError) .anthropic "sk-test" (some "")
      (Or.inr rfl)).1⟩

/-- C8: the core never propagates a transport exception: under a transport
whose every call throws the deadline abort, both the catalog check and the
strict check return a result whose single error is PROVIDER_TIMEOUT of
category network; under a transport whose every call throws any other
exception, NETWORK_ERROR of category network. -/
theorem C8_exception_classification (tAbort tOther : Transport)
    (p : ProviderId) (apiKey targetModel : String)
    (habort : ∀ req, tAbort req = FetchOutcome.abortError)
    (hother : ∀ req, tOther req = FetchOutcome.otherError)
    (htm : ¬ targetModel = "") :
    ((runSingleProviderCheck tAbort p apiKey false none).availability =
        Availability.unavailable ∧
      (runSingleProviderCheck tAbort p apiKey false none).errors.map
          (fun e => (e.error_code, e.category)) =
        [("PROVIDER_TIMEOUT", ErrorCategory.network)]) ∧
    ((runSingleProviderCheck tOther p apiKey false none).availability =
        Availability.unavailable ∧
      (runSingleProviderCheck tOther p apiKey false none).errors.map
          (fun e => (e.error_code, e.category)) =
        [("NETWORK_ERROR", ErrorCategory.network)]) ∧
    ((runSingleProviderCheck tAbort p apiKey true (some targetModel)).availability =
        Availability.unavailable ∧
      (runSingleProviderCheck tAbort p apiKey true (some targetModel)).errors.map
          (fun e => (e.error_code, e.category)) =
        [("PROVIDER_TIMEOUT", ErrorCategory.network)]) ∧
    ((runSingleProviderCheck tOther p apiKey true (some targetModel)).availability =
        Availability.unavailable ∧
      (runSingleProviderCheck tOther p apiKey true (some targetModel)).errors.map
          (fun e => (e.error_code, e.category)) =
        [("NETWORK_ERROR", ErrorCategory.network)]) := by
  refine ⟨?_, ?_, ?_, ?_⟩
  · simp only [runSingleProviderCheck, Bool.false_eq_true, if_false]
    rw [habort]
    simp [buildCheckError]
  · simp only [runSingleProviderCheck, Bool.false_eq_true, if_false]
    rw [hother]
    simp [buildCheckError]
  · cases p <;>
      simp [runSingleProviderCheck, htm, runStrictTargetModelCheck, ADAPTERS,
        strictProbeLoop, habort, buildCheckError]
  · cases p <;>
      simp [runSingleProviderCheck, htm, runStrictTargetModelCheck, ADAPTERS,
        strictProbeLoop, hother, buildCheckError]

/-- Closed instantiation of `C8_exception_classification` on concrete
always-throwing transports. -/
theorem C8_exception_classification_witness :
    (runSingleProviderCheck (fun _ => FetchOutcome.abortError) .anthropic
        "sk-ant-x" false none).errors.map (fun e => (e.error_code, e.category)) =
      [("PROVIDER_TIMEOUT", ErrorCategory.network)] ∧
    (runSingleProviderCheck (fun _ => FetchOutcome.otherError) .anthropic
        "sk-ant-x" true (some "claude-3-5-haiku")).errors.map
        (fun e => (e.error_code, e.category)) =
      [("NETWORK_ERROR", ErrorCategory.network)] :=
  ⟨(C8_exception_classification (fun _ => FetchOutcome.abortError)
      (fun _ => FetchOutcome.otherError) .anthropic "sk-ant-x" "claude-3-5-haiku"
      (fun _ => rfl) (fun _ => rfl) (by decide)).1.2,
   (C8_exception_classification (fun _ => FetchOutcome.abortError)
      (fun _ => FetchOutcome.otherError) .anthropic "sk-ant-x" "claude-3-5-haiku"
      (fun _ => rfl) (fun _ => rfl) (by decide)).2.2.2.2⟩

/-- C2: the strict target prober walks the adapter's probe sequence in
registry order: a probe answering 400, 404 or 422 is inconclusive and
iteration continues carrying that status; a 2xx is terminal with
availability available and models = [target_model]; an exhausted sequence
yields TARGET_MODEL_UNAVAILABLE (category provider) whose provider_status
is http_<s> for the last recorded inconclusive status s, else the
"target_model_unavailable" tag; concretely, on the two-probe openai
adapter 404-then-200 yields available with models = [target_model], and
404-twice yields TARGET_MODEL_UNAVAILABLE with provider_status http_404. -/
theorem C2_strict_probe_sequence :
    (∀ (transport : Transport) (adapter : Adapter) (apiKey targetModel : String)
        (probe : StrictProbeAttempt) (rest : List StrictProbeAttempt)
        (last : Option Nat) (status : Nat) (headers : List String) (body : Json),
      transport (strictProbeRequest adapter apiKey targetModel probe) =
        FetchOutcome.success status headers body →
      (status = 400 ∨ status = 404 ∨ status = 422) →
      strictProbeLoop transport adapter apiKey targetModel (probe :: rest) last =
        strictProbeLoop transport adapter apiKey targetModel rest (some status)) ∧
    (∀ (transport : Transport) (adapter : Adapter) (apiKey targetModel : String)
        (probe : StrictProbeAttempt) (rest : List StrictProbeAttempt)
        (last : Option Nat) (status : Nat) (headers : List String) (body : Json),
      transport (strictProbeRequest adapter apiKey targetModel probe) =
        FetchOutcome.success status headers body →
      responseOk status →
      (strictProbeLoop transport adapter apiKey targetModel (probe :: rest) last).availability =
        Availability.available ∧
      (strictProbeLoop transport adapter apiKey targetModel (probe :: rest) last).models =
        [targetModel]) ∧
    (∀ (transport : Transport) (adapter : Adapter) (apiKey targetModel : String)
        (last : Option Nat),
      (strictProbeLoop transport adapter apiKey targetModel [] last).availability =
        Availability.unavailable ∧
      (strictProbeLoop transport adapter apiKey targetModel [] last).errors.map
          (fun e => (e.error_code, e.category, e.provider_status)) =
        [("TARGET_MODEL_UNAVAILABLE", ErrorCategory.provider,
          (match last with
           | some s => "http_" ++ toString s
           | none => "target_model_unavailable"))]) ∧
    ((runStrictTargetModelCheck transport404Then200 (ADAPTERS .openai)
        "sk-test" "gpt-4o").availability = Availability.available ∧
      (runStrictTargetModelCheck transport404Then200 (ADAPTERS .openai)
        "sk-test" "gpt-4o").models = ["gpt-4o"]) ∧
    (runStrictTargetModelCheck (fun _ => FetchOutcome.success 404 [] Json.null)
        (ADAPTERS .openai) "sk-test" "gpt-4o").errors.map
        (fun e => (e.error_code, e.provider_status)) =
      [("TARGET_MODEL_UNAVAILABLE", "http_404")] := by
  refine ⟨?_, ?_, ?_, ⟨by decide, by decide⟩, by decide⟩
  · intro transport adapter apiKey targetModel probe rest last status headers body hfetch hst
    have h1 : ¬ responseOk status := by
      simp only [responseOk]
      omega
    have h2 : ¬ (status = 401 ∨ status = 403) := by omega
    have h3 : ¬ (status = 429 ∨ 500 ≤ status) := by omega
    simp only [strictProbeLoop]
    rw [hfetch]
    simp [h1, h2, h3, hst]
  · intro transport adapter apiKey targetModel probe rest last status headers body hfetch hok
    simp only [strictProbeLoop]
    rw [hfetch]
    simp [hok]
  · intro transport adapter apiKey targetModel last
    cases last <;> simp [strictProbeLoop, buildCheckError]

/-- Closed instantiation of `C2_strict_probe_sequence`: a first-probe 2xx
is terminal and available with the target model as sole model. -/
theorem C2_strict_probe_sequence_witness :
    (strictProbeLoop (fun _ => FetchOutcome.success 200 [] Json.null)
        (ADAPTERS .anthropic) "sk-ant-x" "claude-3"
        ({ endpoint := "https://api.anthropic.com/v1/messages"
           buildBody := anthropicMessagesBody } :: []) none).availability =
      Availability.available ∧
    (strictProbeLoop (fun _ => FetchOutcome.success 200 [] Json.null)
        (ADAPTERS .anthropic) "sk-ant-x" "claude-3"
        ({ endpoint := "https://api.anthropic.com/v1/messages"
           buildBody := anthropicMessagesBody } :: []) none).models = ["claude-3"] :=
  C2_strict_probe_sequence.2.1 (fun _ => FetchOutcome.success 200 [] Json.null)
    (ADAPTERS .anthropic) "sk-ant-x" "claude-3"
    { endpoint := "https://api.anthropic.com/v1/messages"
      buildBody := anthropicMessagesBody } [] none 200 [] Json.null rfl (by decide)

/-- C1: orchestrator candidate iteration and fallback precedence: the
first candidate with an available result is returned immediately; an
AUTH_FAILED failure is retained and iteration continues; in strict mode a
TARGET_MODEL_UNAVAILABLE failure is retained and iteration continues; any
other failure is returned immediately, independent of later candidates;
on exhaustion the retained auth failure wins, else the retained
strict-unavailable failure, else the first failure; concretely, auth
failure on candidate A falls through to B's success, while a network
failure on A is returned without B being attempted. -/
theorem C1_orchestrator_fallback :
    (∀ (transport : Transport) (apiKey : String) (strictMode : Bool)
        (targetModel : Option String) (p : ProviderId) (rest : List ProviderId)
        (ff af sf : Option ProviderRunResult),
      (runSingleProviderCheck transport p apiKey strictMode targetModel).availability =
        Availability.available →
      runCandidateLoop transport apiKey strictMode targetModel (p :: rest) ff af sf =
        runSingleProviderCheck transport p apiKey strictMode targetModel) ∧
    (∀ (transport : Transport) (apiKey : String) (strictMode : Bool)
        (targetModel : Option String) (p : ProviderId) (rest : List ProviderId)
        (ff af sf : Option ProviderRunResult),
      (runSingleProviderCheck transport p apiKey strictMode targetModel).availability ≠
        Availability.available →
      (runSingleProviderCheck transport p apiKey strictMode targetModel).errors.any
        (fun e => e.error_code == "AUTH_FAILED") = true →
      runCandidateLoop transport apiKey strictMode targetModel (p :: rest) ff af sf =
        runCandidateLoop transport apiKey strictMode targetModel rest
          (some (ff.getD (runSingleProviderCheck transport p apiKey strictMode targetModel)))
          (some (runSingleProviderCheck transport p apiKey strictMode targetModel)) sf) ∧
    (∀ (transport : Transport) (apiKey : String) (strictMode : Bool)
        (targetModel : Option String) (p : ProviderId) (rest : List ProviderId)
        (ff af sf : Option ProviderRunResult),
      (runSingleProviderCheck transport p apiKey strictMode targetModel).availability ≠
        Availability.available →
      (runSingleProviderCheck transport p apiKey strictMode targetModel).errors.any
        (fun e => e.error_code == "AUTH_FAILED") = false →
      strictMode = true →
      (runSingleProviderCheck transport p apiKey strictMode targetModel).errors.any
        (fun e => e.error_code == "TARGET_MODEL_UNAVAILABLE") = true →
      runCandidateLoop transport apiKey strictMode targetModel (p :: rest) ff af sf =
        runCandidateLoop transport apiKey strictMode targetModel rest
          (some (ff.getD (runSingleProviderCheck transport p apiKey strictMode targetModel)))
          af
          (some (runSingleProviderCheck transport p apiKey strictMode targetModel))) ∧
    (∀ (transport : Transport) (apiKey : String) (strictMode : Bool)
        (targetModel : Option String) (p : ProviderId) (rest : List ProviderId)
        (ff af sf : Option ProviderRunResult),
      (runSingleProviderCheck transport p apiKey strictMode targetModel).availability ≠
        Availability.available →
      (runSingleProviderCheck transport p apiKey strictMode targetModel).errors.any
        (fun e => e.error_code == "AUTH_FAILED") = false →
      ¬ (strictMode = true ∧
        (runSingleProviderCheck transport p apiKey strictMode targetModel).errors.any
          (fun e => e.error_code == "TARGET_MODEL_UNAVAILABLE") = true) →
      runCandidateLoop transport apiKey strictMode targetModel (p :: rest) ff af sf =
        runSingleProviderCheck transport p apiKey strictMode targetModel) ∧
    (∀ (transport : Transport) (apiKey : String) (strictMode : Bool)
        (targetModel : Option String) (ff sf : Option ProviderRunResult)
        (ra : ProviderRunResult),
      runCandidateLoop transport apiKey strictMode targetModel [] ff (some ra) sf = ra) ∧
    (∀ (transport : Transport) (apiKey : String) (strictMode : Bool)
        (targetModel : Option String) (ff : Option ProviderRunResult)
        (rs : ProviderRunResult),
      runCandidateLoop transport apiKey strictMode targetModel [] ff none (some rs) = rs) ∧
    (∀ (transport : Transport) (apiKey : String) (strictMode : Bool)
        (targetModel : Option String) (rf : ProviderRunResult),
      runCandidateLoop transport apiKey strictMode targetModel [] (some rf) none none = rf) ∧
    ((runProviderCheck transportAuthThenOk none "sk-1234567890" false none).provider =
        ResultProvider.known .openai ∧
      (runProviderCheck transportAuthThenOk none "sk-1234567890" false none).availability =
        Availability.available ∧
      (runProviderCheck transportAuthThenOk none "sk-1234567890" false none).models =
        ["gpt-4o"]) ∧
    ((runProviderCheck transportNetFailA none "sk-1234567890" false none).provider =
        ResultProvider.known .openrouter ∧
      (runProviderCheck transportNetFailA none "sk-1234567890" false none).errors.map
        (fun e => e.error_code) = ["NETWORK_ERROR"] ∧
      runProviderCheck transportNetFailA none "sk-1234567890" false none =
        runProviderCheck transportNetFailB none "sk-1234567890" false none) := by
  refine ⟨?_, ?_, ?_, ?_, ?_, ?_, ?_, ⟨by decide, by decide, by decide⟩,
    ⟨by decide, by decide, by decide⟩⟩
  · intro transport apiKey strictMode targetModel p rest ff af sf h
    simp only [runCandidateLoop]
    simp [h]
  · intro transport apiKey strictMode targetModel p rest ff af sf h hauth
    simp only [runCandidateLoop]
    simp [h, hauth]
  · intro transport apiKey strictMode targetModel p rest ff af sf h hauth hsm htmu
    subst hsm
    simp only [runCandidateLoop]
    rw [if_neg h, if_neg (by rw [hauth]; simp), if_pos ⟨by trivial, htmu⟩]
  · intro transport apiKey strictMode targetModel p rest ff af sf h hauth hcond
    simp only [runCandidateLoop]
    rw [if_neg h, if_neg (by rw [hauth]; simp), if_neg hcond]
  · intro transport apiKey strictMode targetModel ff sf ra
    rfl
  · intro transport apiKey strictMode targetModel ff rs
    rfl
  · intro transport apiKey strictMode targetModel rf
    rfl

/-- Closed instantiation of `C1_orchestrator_fallback`: success
short-circuit, auth-failure continuation, and non-auth immediate return,
on the auto-detected [openrouter, openai] candidate list. -/
theorem C1_orchestrator_fallback_witness :
    runCandidateLoop transportAuthThenOk "sk-1234567890" false none
        [ProviderId.openai] none none none =
      runSingleProviderCheck transportAuthThenOk .openai "sk-1234567890" false none ∧
    runCandidateLoop transportAuthThenOk "sk-1234567890" false none
        [ProviderId.openrouter, ProviderId.openai] none none none =
      runCandidateLoop transportAuthThenOk "sk-1234567890" false none
        [ProviderId.openai]
        (some (runSingleProviderCheck transportAuthThenOk .openrouter
          "sk-1234567890" false none))
        (some (runSingleProviderCheck transportAuthThenOk .openrouter
          "sk-1234567890" false none)) none ∧
    runCandidateLoop transportNetFailA "sk-1234567890" false none
        [ProviderId.openrouter, ProviderId.openai] none none none =
      runSingleProviderCheck transportNetFailA .openrouter "sk-1234567890" false none :=
  ⟨C1_orchestrator_fallback.1 transportAuthThenOk "sk-1234567890" false none
      .openai [] none none none (by decide),
   C1_orchestrator_fallback.2.1 transportAuthThenOk "sk-1234567890" false none
      .openrouter [.openai] none none none (by decide) (by decide),
   C1_orchestrator_fallback.2.2.2.1 transportNetFailA "sk-1234567890" false none
      .openrouter [.openai] none none none (by decide) (by decide) (by decide)⟩

end CheckApi
